import Mathlib

/-!
Verification of the TCP network layer of open62541 (examples/networklayer_tcp.c).

The file shallowly embeds the functions of the source file as Lean definitions.
Machine integers are modelled as Nat (no value in this file can overflow its C
type: lengths are below 512, ports below 65536, counters only grow by 1 per
call).  Operating-system calls (send, recv, malloc, setsockopt, accept,
gethostbyname, connect) are modelled as oracle inputs: each definition takes
the outcomes of the system calls it performs as explicit arguments, and records
the externally visible effects (shutdown calls, descriptor closes, bytes put on
the wire, jobs produced) in its result.
-/

/-- Connection lifecycle states, from ua_connection.h as used by the source
(`UA_CONNECTION_OPENING`, `UA_CONNECTION_ESTABLISHED`, `UA_CONNECTION_CLOSED`). -/
inductive UA_ConnectionState
  | opening
  | established
  | closed
deriving DecidableEq, Repr

/-- Status codes returned by the functions of the source file. -/
inductive UA_StatusCode
  | good
  | badConnectionClosed
  | badOutOfMemory
  | badCommunicationError
  | badInternalError
deriving DecidableEq, Repr

/-- Observable close-path state of one connection: its lifecycle state together
with how often `shutdown` was invoked on its socket and how often the
descriptor was released with `CLOSESOCKET`. -/
structure CloseObs where
  state : UA_ConnectionState
  shutdownCalls : Nat
  closesocketCalls : Nat
deriving DecidableEq, Repr

/-- Model of `socket_close` (networklayer_tcp.c lines 47-52): unconditionally
set the state to closed, call `shutdown(sockfd, 2)` and release the descriptor
with `CLOSESOCKET`.  There is no guard on the current state. -/
def socket_close (c : CloseObs) : CloseObs :=
  { state := .closed
    shutdownCalls := c.shutdownCalls + 1
    closesocketCalls := c.closesocketCalls + 1 }

/-- Model of `ServerNetworkLayerTCP_closeConnection` (lines 236-251): if the
state is already closed, return immediately; otherwise set it to closed and
only `shutdown` the socket (the descriptor is not released here).  The
multithreaded variant uses `uatomic_xchg`, whose sequential semantics
(exchange, return old value, no-op if the old value was closed) is the same. -/
def ServerNetworkLayerTCP_closeConnection (c : CloseObs) : CloseObs :=
  if c.state = .closed then c
  else
    { state := .closed
      shutdownCalls := c.shutdownCalls + 1
      closesocketCalls := c.closesocketCalls }

/-- Model of `ClientNetworkLayerClose` (lines 482-493): if the state is already
closed, return immediately; otherwise set it to closed and call
`socket_close`. -/
def ClientNetworkLayerClose (c : CloseObs) : CloseObs :=
  if c.state = .closed then c
  else socket_close { c with state := .closed }

/-- Origin of one close request on a connection: the owning server's
asynchronous callback, the client's callback, or the network loop closing the
socket directly (`socket_close` is what the loop and the stop path invoke). -/
inductive CloseEvent
  | serverCallback
  | clientCallback
  | loopDetected
deriving DecidableEq, Repr

/-- Apply one close request to a connection's observable state. -/
def applyCloseEvent : CloseEvent → CloseObs → CloseObs
  | .serverCallback, c => ServerNetworkLayerTCP_closeConnection c
  | .clientCallback, c => ClientNetworkLayerClose c
  | .loopDetected, c => socket_close c

/-- Run a sequence of close requests against a connection. -/
def runCloseEvents (evs : List CloseEvent) (c : CloseObs) : CloseObs :=
  evs.foldl (fun s e => applyCloseEvent e s) c

/-- Number of effective transitions to the closed state along a sequence of
close requests: steps whose pre-state is not closed and whose post-state is. -/
def effectiveTransitions : List CloseEvent → CloseObs → Nat
  | [], _ => 0
  | e :: rest, c =>
    let c' := applyCloseEvent e c
    (if c.state ≠ .closed ∧ c'.state = .closed then 1 else 0) +
      effectiveTransitions rest c'

/-- Outcome of one `send` system call, as seen by `socket_write`: either the
OS accepted `n` bytes of the range passed to it (`n ≥ 0`), or it returned -1
with a retryable errno (`EINTR`/`EAGAIN`), or -1 with any other errno. -/
inductive SendResult
  | ok (n : Nat)
  | retryableError
  | fatalError
deriving DecidableEq, Repr

/-- Loop of `socket_write` (lines 54-83).  `buf` is the byte string passed in,
`nWritten` the counter of the C code, `wire` the bytes handed to the OS so far
(each successful `send` of result `n` puts the first `n` bytes of the range it
was given on the wire), and `sends` the outcomes of the successive `send`
calls.  The C code always passes `buf->data` and `buf->length` to `send`,
without offsetting by `nWritten`, so every call transmits a prefix of the whole
buffer.  Returns `none` if the outcome list is exhausted while the loop still
runs (the real code would keep calling `send`). -/
def socket_write_go (buf : List Nat) : List SendResult → Nat → List Nat →
    Option (UA_StatusCode × List Nat)
  | [], nWritten, wire =>
    if 0 < buf.length ∧ nWritten < buf.length then none
    else some (.good, wire)
  | s :: rest, nWritten, wire =>
    if 0 < buf.length ∧ nWritten < buf.length then
      match s with
      | .ok n => socket_write_go buf rest (nWritten + n) (wire ++ buf.take n)
      | .retryableError => socket_write_go buf rest nWritten wire
      | .fatalError => some (.badConnectionClosed, wire)
    else some (.good, wire)

/-- Model of `socket_write` (lines 54-83): run the send loop from
`nWritten = 0` with an empty wire.  On the fatal path the connection is
closed and the buffer released; on the success path the buffer is released
and `UA_STATUSCODE_GOOD` returned. -/
def socket_write (buf : List Nat) (sends : List SendResult) :
    Option (UA_StatusCode × List Nat) :=
  socket_write_go buf sends 0 []

/-- Outcome of the one `recv` system call performed by `socket_recv`:
`bytes n` models a return value `n ≥ 0` (`0` meaning the peer closed the
connection), `retryableError` models -1 with `EINTR`/`EAGAIN`/`EWOULDBLOCK`,
and `fatalError` models -1 with any other errno. -/
inductive RecvCallResult
  | bytes (n : Nat)
  | retryableError
  | fatalError
deriving DecidableEq, Repr

/-- Observable result of `socket_recv`: the returned status, whether the
response byte string still owns data (false after
`UA_ByteString_deleteMembers`), its length, and whether `socket_close` was
invoked on the connection. -/
structure RecvOut where
  status : UA_StatusCode
  dataPresent : Bool
  length : Nat
  socketClosed : Bool
deriving DecidableEq, Repr

/-- Model of `socket_recv` (lines 85-132).  `mallocOk` is the outcome of the
allocation of the receive buffer of size `recvBufferSize`, `timeout` the
millisecond timeout argument, `setsockoptOk` the outcome of installing the
receive timeout (only attempted when `timeout > 0`), and `r` the outcome of
the `recv` call.  On success with `n > 0` bytes the response length is set to
`n`, the number of bytes actually read, never to `recvBufferSize`. -/
def socket_recv (recvBufferSize : Nat) (mallocOk : Bool) (timeout : Nat)
    (setsockoptOk : Bool) (r : RecvCallResult) : RecvOut :=
  if mallocOk = false then
    { status := .badOutOfMemory, dataPresent := false, length := 0
      socketClosed := false }
  else if 0 < timeout ∧ setsockoptOk = false then
    { status := .badConnectionClosed, dataPresent := false, length := 0
      socketClosed := true }
  else
    match r with
    | .bytes 0 =>
      { status := .badConnectionClosed, dataPresent := false, length := 0
        socketClosed := true }
    | .retryableError =>
      { status := .good, dataPresent := false, length := 0
        socketClosed := false }
    | .fatalError =>
      { status := .badConnectionClosed, dataPresent := false, length := 0
        socketClosed := true }
    | .bytes (n + 1) =>
      { status := .good, dataPresent := true, length := n + 1
        socketClosed := false }

/-- The fields of a `UA_Connection` read by the two get-buffer capabilities:
the lifecycle state and `remoteConf.recvBufferSize`. -/
structure ConnBufferView where
  state : UA_ConnectionState
  remoteConfRecvBufferSize : Nat
deriving DecidableEq, Repr

/-- Model of `ServerNetworkLayerGetSendBuffer` (lines 206-211): refuse lengths
above the remote receive-buffer size, otherwise allocate a buffer of the
requested length (`allocOk` is the allocator outcome).  The connection state
is not inspected.  The Bool result records whether a buffer was allocated. -/
def ServerNetworkLayerGetSendBuffer (c : ConnBufferView) (length : Nat)
    (allocOk : Bool) : UA_StatusCode × Bool :=
  if c.remoteConfRecvBufferSize < length then (.badCommunicationError, false)
  else if allocOk then (.good, true)
  else (.badOutOfMemory, false)

/-- Model of `ClientNetworkLayerGetBuffer` (lines 468-475): refuse lengths
above the remote receive-buffer size, refuse closed connections, otherwise
allocate a buffer of the remote receive-buffer size. -/
def ClientNetworkLayerGetBuffer (c : ConnBufferView) (length : Nat)
    (allocOk : Bool) : UA_StatusCode × Bool :=
  if c.remoteConfRecvBufferSize < length then (.badCommunicationError, false)
  else if c.state = .closed then (.badConnectionClosed, false)
  else if allocOk then (.good, true)
  else (.badOutOfMemory, false)

/-- Model of the C `strtoul` with base 10 applied to a character sequence made
of plain decimal digits (no leading whitespace or sign occurs in the port
fields considered here): accumulate the maximal digit prefix.  Returns the
parsed value and the number of characters consumed; `endPtr` differs from the
start of the string exactly when the consumed count is nonzero.  The C code's
`ERANGE != errno` conjunct is subsumed by its `tempulong < UINT16_MAX`
conjunct: on overflow `strtoul` yields `ULONG_MAX`, which the bound also
rejects, while here the exact value is accumulated and rejected by the same
bound. -/
def strtoulGo : List Char → Nat → Nat → Nat × Nat
  | [], acc, consumed => (acc, consumed)
  | ch :: rest, acc, consumed =>
    if '0' ≤ ch ∧ ch ≤ '9' then
      strtoulGo rest (acc * 10 + (ch.toNat - 48)) (consumed + 1)
    else (acc, consumed)

/-- Parse a decimal number from the front of a character list, as `strtoul`
does for base 10. -/
def strtoul (s : List Char) : Nat × Nat :=
  strtoulGo s 0 0

/-- Scan loop of `ClientNetworkLayerTCP_connect` (lines 520-534), expressed on
the suffix of the URL that starts at the current `portpos`.  The C loop
condition `portpos < urlLength - 1` holds exactly when at least two characters
remain in the suffix; `endpointUrl[portpos]` is the head of the suffix and
`&endpointUrl[portpos+1]` its tail.  On the first `':'` found, parse the port
with `strtoul` and accept it only if it is below `UINT16_MAX` (65535) and at
least one character was consumed; otherwise `port` keeps its initial value 0.
Returns the pair of the `port` and `portpos` variables after the loop. -/
def portScanGo : Nat → List Char → Nat × Nat
  | portpos, c1 :: c2 :: rest =>
    if c1 = ':' then
      let t := strtoul (c2 :: rest)
      (if t.1 < 65535 ∧ t.2 ≠ 0 then t.1 else 0, portpos)
    else portScanGo (portpos + 1) (c2 :: rest)
  | portpos, _ => (0, portpos)

/-- Scan the URL for the first `':'` from position `portpos` on, as the `for`
loop of `ClientNetworkLayerTCP_connect` does. -/
def portScan (url : List Char) (portpos : Nat) : Nat × Nat :=
  portScanGo portpos (url.drop portpos)

/-- The required scheme of an endpoint URL, compared by
`strncmp(endpointUrl, ..., 10)` against the first ten characters. -/
def schemeChars : List Char :=
  ['o', 'p', 'c', '.', 't', 'c', 'p', ':', '/', '/']

/-- Outcomes of the system calls performed by `ClientNetworkLayerTCP_connect`
after URL validation: socket creation, name resolution, the blocking connect,
and the `SO_NOSIGPIPE` socket option. -/
structure ClientConnectEnv where
  socketOk : Bool
  dnsOk : Bool
  connectOk : Bool
  nosigpipeOk : Bool
deriving DecidableEq, Repr

/-- The return statement through which `ClientNetworkLayerTCP_connect` exits;
each constructor corresponds to one `return connection` in the source. -/
inductive ConnectStage
  | badUrlSize
  | badScheme
  | badPort
  | badSocket
  | badDns
  | badConnect
  | badNoSigPipe
  | connected
deriving DecidableEq, Repr

/-- Observable result of `ClientNetworkLayerTCP_connect`: the state of the
returned connection, the exit point, and the hostname and port extracted from
the URL (empty and 0 when validation failed before they were computed). -/
structure ClientConnectResult where
  state : UA_ConnectionState
  stage : ConnectStage
  hostname : List Char
  port : Nat
deriving DecidableEq, Repr

/-- Model of `ClientNetworkLayerTCP_connect` (lines 496-582).  `initState` is
the state left by `UA_Connection_init` (the function does not branch on it).
URL validation: the length must be at least 11 and below 512, the first ten
characters must be the scheme, and the scanned port must be nonzero.  The
hostname is the character range from index 10 up to the found `portpos`.
Socket creation and name resolution happen next; then the state is set to
opening and the blocking `connect` is issued; on its failure
`ClientNetworkLayerClose` is invoked on the connection before returning.  The
optional `SO_NOSIGPIPE` failure returns with the state still opening. -/
def ClientNetworkLayerTCP_connect (initState : UA_ConnectionState)
    (endpointUrl : List Char) (env : ClientConnectEnv) : ClientConnectResult :=
  let urlLength := endpointUrl.length
  if urlLength < 11 ∨ 512 ≤ urlLength then
    { state := initState, stage := .badUrlSize, hostname := [], port := 0 }
  else if endpointUrl.take 10 ≠ schemeChars then
    { state := initState, stage := .badScheme, hostname := [], port := 0 }
  else
    let pp := portScan endpointUrl 9
    if pp.1 = 0 then
      { state := initState, stage := .badPort, hostname := [], port := 0 }
    else
      let hostname := (endpointUrl.drop 10).take (pp.2 - 10)
      if env.socketOk = false then
        { state := initState, stage := .badSocket, hostname := hostname
          port := pp.1 }
      else if env.dnsOk = false then
        { state := initState, stage := .badDns, hostname := hostname
          port := pp.1 }
      else if env.connectOk = false then
        { state := (ClientNetworkLayerClose
            { state := .opening, shutdownCalls := 0,
              closesocketCalls := 0 }).state
          stage := .badConnect, hostname := hostname, port := pp.1 }
      else if env.nosigpipeOk = false then
        { state := .opening, stage := .badNoSigPipe, hostname := hostname
          port := pp.1 }
      else
        { state := .opening, stage := .connected, hostname := hostname
          port := pp.1 }

/-- One entry of the connection table of the server network layer
(`struct ConnectionMapping`): the connection (identified by its address, an
opaque natural here) and its socket descriptor. -/
structure ConnectionMapping where
  connection : Nat
  sockfd : Int
deriving DecidableEq, Repr

/-- Jobs produced by the server network layer, the cases of `UA_Job` this file
constructs: a received binary message owned by the network layer or by the job,
a connection to detach, and the delayed method call whose method is
`FreeConnectionCallback` and whose data is the connection to free. -/
inductive UA_Job
  | binaryMessageNetworkLayer (connection : Nat) (message : List Nat)
  | binaryMessageAllocated (connection : Nat) (message : List Nat)
  | detachConnection (connection : Nat)
  | delayedFreeConnection (connection : Nat)
deriving DecidableEq, Repr

/-- Environment of one run of the read loop of
`ServerNetworkLayerTCP_getJobs`: which descriptors `select` marked ready, the
outcome of `socket_recv` for each table entry (status and received bytes), and
the outcome of the external `UA_Connection_completeMessages` collaborator
(status, possibly reallocated message, realloc flag).  Each entry is received
from at most once per loop run, so outcomes keyed by the entry are faithful. -/
structure GetJobsEnv where
  ready : Int → Bool
  recvResult : ConnectionMapping → UA_StatusCode × List Nat
  completeMessages : ConnectionMapping → List Nat →
    UA_StatusCode × List Nat × Bool

/-- Read loop of `ServerNetworkLayerTCP_getJobs` (lines 357-397): iterate `i`
over the connection table while `j < resultsize`, skipping entries that are
not ready.  A good receive hands the bytes to `completeMessages` and emits a
binary-message job if a complete message came back; a connection-closed
receive emits a `DetachConnection` job, replaces entry `i` with the last
entry, shrinks the table, and emits the delayed free job for the same
connection; any other status emits nothing.  Returns the job list (the
prefix `js[0..j)` of the C job array, in order) and the table left for the
next iteration. -/
def getJobsReadLoop (env : GetJobsEnv) (resultsize : Nat) :
    (maps : List ConnectionMapping) → (i : Nat) → (j : Nat) →
    List UA_Job × List ConnectionMapping
  | maps, i, j =>
    if h : i < maps.length ∧ j < resultsize then
      let m := maps.get ⟨i, h.1⟩
      if env.ready m.sockfd = false then
        getJobsReadLoop env resultsize maps (i + 1) j
      else
        let rb := env.recvResult m
        if rb.1 = .good then
          let cm := env.completeMessages m rb.2
          if cm.1 ≠ .good ∨ cm.2.1.length = 0 then
            getJobsReadLoop env resultsize maps (i + 1) j
          else
            let job := if cm.2.2 = false then
                UA_Job.binaryMessageNetworkLayer m.connection cm.2.1
              else UA_Job.binaryMessageAllocated m.connection cm.2.1
            let rest := getJobsReadLoop env resultsize maps (i + 1) (j + 1)
            (job :: rest.1, rest.2)
        else if rb.1 = .badConnectionClosed then
          let maps' := (maps.set i (maps.get ⟨maps.length - 1, by omega⟩)).dropLast
          let rest := getJobsReadLoop env resultsize maps' (i + 1) (j + 2)
          (UA_Job.detachConnection m.connection ::
            UA_Job.delayedFreeConnection m.connection :: rest.1, rest.2)
        else
          getJobsReadLoop env resultsize maps (i + 1) j
    else ([], maps)
termination_by maps i j => maps.length - i
decreasing_by
  all_goals simp_all [List.length_dropLast, List.length_set]
  all_goals omega

/-- Result of `ServerNetworkLayerTCP_stop`: the returned job count, the job
array, the close-path states of the connections after the loop, and whether
the listening socket was shut down and released. -/
structure StopResult where
  count : Nat
  jobs : List UA_Job
  connStates : Nat → CloseObs
  serverSocketClosed : Bool

/-- Loop of `ServerNetworkLayerTCP_stop` (lines 409-416): for every table
entry, call `socket_close` on its connection and write the
`DetachConnection` job at index `2*i` and the delayed free job at `2*i + 1`. -/
def stopLoop (maps : List ConnectionMapping) (states : Nat → CloseObs) :
    List UA_Job × (Nat → CloseObs) :=
  match maps with
  | [] => ([], states)
  | m :: rest =>
    let states' := fun c =>
      if c = m.connection then socket_close (states m.connection) else states c
    let r := stopLoop rest states'
    (UA_Job.detachConnection m.connection ::
      UA_Job.delayedFreeConnection m.connection :: r.1, r.2)

/-- Model of `ServerNetworkLayerTCP_stop` (lines 400-422): shut down and
release the listening socket, allocate the job array (`allocOk` the allocator
outcome; on failure the function returns 0 jobs), run the loop over the table
and return `mappingsSize * 2`. -/
def ServerNetworkLayerTCP_stop (maps : List ConnectionMapping)
    (states : Nat → CloseObs) (allocOk : Bool) : StopResult :=
  if allocOk = false then
    { count := 0, jobs := [], connStates := states, serverSocketClosed := true }
  else
    let r := stopLoop maps states
    { count := 2 * maps.length, jobs := r.1, connStates := r.2
      serverSocketClosed := true }


/-- Concrete read-loop environment used to exhibit the detach-then-free
behaviour: every descriptor is ready, connection 1 observes a
connection-closed receive, every other connection receives one byte that the
reassembly collaborator returns unchanged. -/
def c1WitnessEnv : GetJobsEnv where
  ready := fun _ => true
  recvResult := fun m =>
    if m.connection = 1 then (.badConnectionClosed, []) else (.good, [7])
  completeMessages := fun _ b => (.good, b, false)

/-- Concrete two-entry connection table used with `c1WitnessEnv`. -/
def c1WitnessMaps : List ConnectionMapping :=
  [{ connection := 1, sockfd := 5 }, { connection := 2, sockfd := 6 }]


/-! ## Theorems -/

/-- Running any sequence of close requests from an already-closed state leaves
the state closed, bumps both counters once per unguarded `socket_close`
request, and performs no effective transition: the guarded callbacks return
immediately and only `socket_close` touches the socket again. -/
theorem runCloseEvents_from_closed (evs : List CloseEvent) (c : CloseObs)
    (h : c.state = .closed) :
    runCloseEvents evs c =
      ⟨.closed, c.shutdownCalls + evs.count .loopDetected,
        c.closesocketCalls + evs.count .loopDetected⟩ ∧
    effectiveTransitions evs c = 0 := by
  induction evs generalizing c with
  | nil =>
    cases c with
    | mk st sd cs =>
      simp only [runCloseEvents, List.foldl_nil, List.count_nil,
        effectiveTransitions, Nat.add_zero, and_true]
      simp_all
  | cons e rest ih =>
    cases e with
    | serverCallback =>
      have hstep : applyCloseEvent .serverCallback c = c := by
        simp [applyCloseEvent, ServerNetworkLayerTCP_closeConnection, h]
      have hrun : runCloseEvents (CloseEvent.serverCallback :: rest) c =
          runCloseEvents rest c := by
        simp [runCloseEvents, hstep]
      have := ih c h
      refine ⟨?_, ?_⟩
      · rw [hrun, this.1]
        simp [List.count_cons]
      · simp only [effectiveTransitions, hstep, h]
        simpa using this.2
    | clientCallback =>
      have hstep : applyCloseEvent .clientCallback c = c := by
        simp [applyCloseEvent, ClientNetworkLayerClose, h]
      have hrun : runCloseEvents (CloseEvent.clientCallback :: rest) c =
          runCloseEvents rest c := by
        simp [runCloseEvents, hstep]
      have := ih c h
      refine ⟨?_, ?_⟩
      · rw [hrun, this.1]
        simp [List.count_cons]
      · simp only [effectiveTransitions, hstep, h]
        simpa using this.2
    | loopDetected =>
      have hstep : applyCloseEvent .loopDetected c = socket_close c := rfl
      have hrun : runCloseEvents (CloseEvent.loopDetected :: rest) c =
          runCloseEvents rest (socket_close c) := by
        simp [runCloseEvents, hstep]
      have := ih (socket_close c) rfl
      refine ⟨?_, ?_⟩
      · rw [hrun, this.1]
        simp only [socket_close, List.count_cons]
        simp [Nat.add_assoc, Nat.add_comm 1]
      · simp only [effectiveTransitions, hstep, h]
        simp only [socket_close] at this ⊢
        simpa [h] using this.2

/-- C2 counterexample: the sequence owner-callback followed by loop-detected
close on one connection starting in the opening state calls `shutdown` twice
(once in `ServerNetworkLayerTCP_closeConnection`, once more inside the
unguarded `socket_close`), refuting "the socket is shut down exactly once". -/
theorem c2_counterexample :
    (runCloseEvents [CloseEvent.serverCallback, CloseEvent.loopDetected]
      ⟨.opening, 0, 0⟩).shutdownCalls = 2 ∧ (2 : Nat) ≠ 1 := by
  decide

/-- C2 amended: for any nonempty sequence of close requests on one connection
starting from a non-closed state, exactly one effective transition to closed
occurs and the guarded callbacks are no-ops once the state is closed; however
`socket_close` is unguarded, so the descriptor is released once per
`socket_close` execution (one per loop-detected request, plus one if the first
request is the client callback) and the socket is shut down once per
`socket_close` execution plus once more when the first request is a guarded
callback — the owner-then-loop sequence shuts it down twice. -/
theorem c2_close_idempotence_amended (evs : List CloseEvent) (c : CloseObs)
    (hne : evs ≠ []) (hst : c.state ≠ .closed)
    (hsd : c.shutdownCalls = 0) (hcs : c.closesocketCalls = 0) :
    effectiveTransitions evs c = 1 ∧
    (runCloseEvents evs c).state = .closed ∧
    (runCloseEvents evs c).closesocketCalls =
      evs.count .loopDetected +
        (if evs.head? = some .clientCallback then 1 else 0) ∧
    (runCloseEvents evs c).shutdownCalls =
      evs.count .loopDetected +
        (if evs.head? = some .clientCallback then 1 else 0) +
        (if evs.head? = some .serverCallback then 1 else 0) ∧
    (∀ c', c'.state = .closed →
      ServerNetworkLayerTCP_closeConnection c' = c' ∧
      ClientNetworkLayerClose c' = c') := by
  have hnoop : ∀ c' : CloseObs, c'.state = .closed →
      ServerNetworkLayerTCP_closeConnection c' = c' ∧
      ClientNetworkLayerClose c' = c' := by
    intro c' h'
    constructor
    · simp [ServerNetworkLayerTCP_closeConnection, h']
    · simp [ClientNetworkLayerClose, h']
  match evs, hne with
  | e :: rest, _ =>
    have hrun : runCloseEvents (e :: rest) c =
        runCloseEvents rest (applyCloseEvent e c) := by
      simp [runCloseEvents]
    cases e with
    | serverCallback =>
      have hstep : applyCloseEvent .serverCallback c = ⟨.closed, 1, 0⟩ := by
        simp [applyCloseEvent, ServerNetworkLayerTCP_closeConnection, hst,
          hsd, hcs]
      have hrest := runCloseEvents_from_closed rest ⟨.closed, 1, 0⟩ rfl
      refine ⟨?_, ?_, ?_, ?_, hnoop⟩
      · simp only [effectiveTransitions, hstep, hst]
        simp [hrest.2, hst]
      · rw [hrun, hstep, hrest.1]
      · rw [hrun, hstep, hrest.1]
        simp [List.count_cons]
      · rw [hrun, hstep, hrest.1]
        simp [List.count_cons, Nat.add_comm]
    | clientCallback =>
      have hstep : applyCloseEvent .clientCallback c = ⟨.closed, 1, 1⟩ := by
        simp [applyCloseEvent, ClientNetworkLayerClose, socket_close, hst,
          hsd, hcs]
      have hrest := runCloseEvents_from_closed rest ⟨.closed, 1, 1⟩ rfl
      refine ⟨?_, ?_, ?_, ?_, hnoop⟩
      · simp only [effectiveTransitions, hstep, hst]
        simp [hrest.2, hst]
      · rw [hrun, hstep, hrest.1]
      · rw [hrun, hstep, hrest.1]
        simp [List.count_cons, Nat.add_comm]
      · rw [hrun, hstep, hrest.1]
        simp [List.count_cons, Nat.add_comm]
    | loopDetected =>
      have hstep : applyCloseEvent .loopDetected c = ⟨.closed, 1, 1⟩ := by
        simp [applyCloseEvent, socket_close, hsd, hcs]
      have hrest := runCloseEvents_from_closed rest ⟨.closed, 1, 1⟩ rfl
      refine ⟨?_, ?_, ?_, ?_, hnoop⟩
      · simp only [effectiveTransitions, hstep, hst]
        simp [hrest.2, hst]
      · rw [hrun, hstep, hrest.1]
      · rw [hrun, hstep, hrest.1]
        simp [List.count_cons, Nat.add_comm]
      · rw [hrun, hstep, hrest.1]
        simp [List.count_cons, Nat.add_comm]

/-- Witness for the amended C2 theorem at the owner-then-loop sequence from
the opening state: one effective transition, final state closed, one
descriptor release, two shutdown calls. -/
theorem c2_close_idempotence_amended_witness :
    effectiveTransitions [CloseEvent.serverCallback, CloseEvent.loopDetected]
      ⟨.opening, 0, 0⟩ = 1 ∧
    (runCloseEvents [CloseEvent.serverCallback, CloseEvent.loopDetected]
      ⟨.opening, 0, 0⟩).state = .closed ∧
    (runCloseEvents [CloseEvent.serverCallback, CloseEvent.loopDetected]
      ⟨.opening, 0, 0⟩).closesocketCalls = 1 ∧
    (runCloseEvents [CloseEvent.serverCallback, CloseEvent.loopDetected]
      ⟨.opening, 0, 0⟩).shutdownCalls = 2 ∧
    (∀ c', c'.state = .closed →
      ServerNetworkLayerTCP_closeConnection c' = c' ∧
      ClientNetworkLayerClose c' = c') :=
  c2_close_idempotence_amended
    [CloseEvent.serverCallback, CloseEvent.loopDetected]
    ⟨.opening, 0, 0⟩ (by decide) (by decide) rfl rfl

/-- C3: evaluation of `socket_write` at a failing input.  With the buffer
`[10, 20]` and a first `send` that accepts only 1 byte, the loop calls `send`
again with the whole buffer from offset 0 (the code never adds `nWritten` to
`buf->data`), so the wire receives `[10, 10, 20]` — the first byte duplicated
— and the function still reports success.  The claim's transmission of all
bytes in order with no duplicates would require the wire `[10, 20]`. -/
theorem c3_socket_write_resends_from_start :
    socket_write [10, 20] [SendResult.ok 1, SendResult.ok 2] =
      some (.good, [10, 10, 20]) ∧
    ([10, 10, 20] : List Nat) ≠ [10, 20] := by
  decide

/-- C4: the receive contract of `socket_recv`.  When the buffer allocation
succeeds and the optional timeout installation does not fail: zero bytes read
yields a connection-closed failure with the buffer released and the socket
closed; a retryable error yields a good status with an empty result and no
close; any other receive error yields a connection-closed failure; and `n > 0`
bytes read yield a good status with the length exactly `n`.  Unconditionally,
a connection-closed status never comes with data or a nonzero length. -/
theorem c4_socket_recv_contract (bufSize timeout : Nat) (soOk : Bool)
    (h : timeout = 0 ∨ soOk = true) :
    socket_recv bufSize true timeout soOk (.bytes 0) =
      ⟨.badConnectionClosed, false, 0, true⟩ ∧
    socket_recv bufSize true timeout soOk .retryableError =
      ⟨.good, false, 0, false⟩ ∧
    socket_recv bufSize true timeout soOk .fatalError =
      ⟨.badConnectionClosed, false, 0, true⟩ ∧
    (∀ n, socket_recv bufSize true timeout soOk (.bytes (n + 1)) =
      ⟨.good, true, n + 1, false⟩) ∧
    (∀ (bs t : Nat) (mOk sOk : Bool) (r : RecvCallResult),
      (socket_recv bs mOk t sOk r).status = .badConnectionClosed →
      (socket_recv bs mOk t sOk r).dataPresent = false ∧
      (socket_recv bs mOk t sOk r).length = 0) := by
  have hcond : ¬(0 < timeout ∧ soOk = false) := by
    rcases h with h | h <;> simp [h]
  refine ⟨?_, ?_, ?_, ?_, ?_⟩
  · simp [socket_recv, hcond]
  · simp [socket_recv, hcond]
  · simp [socket_recv, hcond]
  · intro n
    simp [socket_recv, hcond]
  · intro bs t mOk sOk r hstatus
    cases mOk with
    | false => simp [socket_recv] at hstatus
    | true =>
      by_cases hc : 0 < t ∧ sOk = false
      · simp [socket_recv, hc]
      · cases r with
        | bytes n =>
          cases n with
          | zero => simp [socket_recv, hc]
          | succ k => simp [socket_recv, hc] at hstatus
        | retryableError => simp [socket_recv, hc] at hstatus
        | fatalError => simp [socket_recv, hc]

/-- Witness for the C4 contract at a concrete input: timeout 0, allocation
succeeded, and the peer closed the connection (zero bytes read). -/
theorem c4_socket_recv_contract_witness :
    socket_recv 1024 true 0 true (RecvCallResult.bytes 0) =
      ⟨.badConnectionClosed, false, 0, true⟩ :=
  (c4_socket_recv_contract 1024 0 true (Or.inl rfl)).1

/-- C5 counterexample: `ServerNetworkLayerGetSendBuffer` inspects only the
length bound, not the connection state, so on a closed server-side connection
with a request length within the remote bound it allocates a buffer and
returns success — refuting "calling getSendBuffer on a Closed connection
(server-side or client-side) does not allocate a buffer and does not return
success". -/
theorem c5_counterexample :
    ServerNetworkLayerGetSendBuffer ⟨.closed, 100⟩ 10 true = (.good, true) := by
  decide

/-- C5 amended: on a closed connection the client-side get-buffer capability
neither allocates nor returns success (it fails the state check, or the length
check first); the server-side get-send-buffer capability performs no state
check at all, and on a closed connection it allocates and returns success
whenever the length is within the remote receive-buffer bound and the
allocation succeeds. -/
theorem c5_closed_getbuffer_amended (c : ConnBufferView) (len : Nat)
    (allocOk : Bool) (hc : c.state = .closed) :
    ((ClientNetworkLayerGetBuffer c len allocOk).1 ≠ .good ∧
      (ClientNetworkLayerGetBuffer c len allocOk).2 = false) ∧
    (len ≤ c.remoteConfRecvBufferSize →
      ServerNetworkLayerGetSendBuffer c len true = (.good, true)) := by
  constructor
  · unfold ClientNetworkLayerGetBuffer
    split
    · simp
    · simp [hc]
  · intro hlen
    unfold ServerNetworkLayerGetSendBuffer
    have : ¬c.remoteConfRecvBufferSize < len := by omega
    simp [this]

/-- Witness for the amended C5 theorem on a closed connection with remote
bound 100 and request length 10. -/
theorem c5_closed_getbuffer_amended_witness :
    ((ClientNetworkLayerGetBuffer ⟨.closed, 100⟩ 10 true).1 ≠ .good ∧
      (ClientNetworkLayerGetBuffer ⟨.closed, 100⟩ 10 true).2 = false) ∧
    (10 ≤ 100 →
      ServerNetworkLayerGetSendBuffer ⟨.closed, 100⟩ 10 true = (.good, true)) :=
  c5_closed_getbuffer_amended ⟨.closed, 100⟩ 10 true rfl

/-- Helper: whatever the port scan returns, a nonzero port is below 65535 —
the accepted value is guarded by the `tempulong < UINT16_MAX` test and every
other path leaves the port 0. -/
theorem portScanGo_lt (p : Nat) (s : List Char)
    (h : (portScanGo p s).1 ≠ 0) : (portScanGo p s).1 < 65535 := by
  induction s generalizing p with
  | nil => simp [portScanGo] at h
  | cons c1 tail ih =>
    cases tail with
    | nil => simp [portScanGo] at h
    | cons c2 rest =>
      by_cases hc : c1 = ':'
      · simp only [portScanGo, if_pos hc] at h ⊢
        split
        · next hcond => exact hcond.1
        · omega
      · simp only [portScanGo, if_neg hc] at h ⊢
        exact ih (p + 1) h

/-- Helper: the port scan started before the first `':'` of the suffix stops
exactly at that `':'` and parses the characters after it. -/
theorem portScanGo_append_colon (xs : List Char) (d : Char) (ds : List Char)
    (p : Nat) (hxs : ':' ∉ xs) :
    portScanGo p (xs ++ ':' :: d :: ds) =
      (if (strtoul (d :: ds)).1 < 65535 ∧ (strtoul (d :: ds)).2 ≠ 0 then
        (strtoul (d :: ds)).1 else 0, p + xs.length) := by
  induction xs generalizing p with
  | nil => simp [portScanGo]
  | cons x xt ih =>
    have hx : x ≠ ':' := by
      intro hcontra
      exact hxs (hcontra ▸ List.mem_cons_self x xt)
    have hxt : ':' ∉ xt := fun hm => hxs (List.mem_cons_of_mem x hm)
    cases hcons : xt ++ ':' :: d :: ds with
    | nil => simp at hcons
    | cons y ys =>
      rw [List.cons_append, hcons, portScanGo, if_neg hx, ← hcons, ih (p + 1) hxt]
      simp only [List.length_cons, Prod.mk.injEq, true_and]
      omega

/-- Helper: a URL that passes the size and scheme checks but whose port scan
yields 0 makes `ClientNetworkLayerTCP_connect` return at the port-invalid
check, before any socket is created. -/
theorem connect_stage_badPort_aux (initState : UA_ConnectionState)
    (env : ClientConnectEnv) (url : List Char)
    (h1 : 11 ≤ url.length) (h2 : url.length < 512)
    (h3 : url.take 10 = schemeChars) (h4 : (portScan url 9).1 = 0) :
    (ClientNetworkLayerTCP_connect initState url env).stage = .badPort := by
  unfold ClientNetworkLayerTCP_connect
  have hc1 : ¬(url.length < 11 ∨ 512 ≤ url.length) := by omega
  simp [hc1, h3, h4]

/-- C7: endpoint URL validation of `ClientNetworkLayerTCP_connect`, for every
initial state and every outcome of the later system calls.  The URL
`opc.tcp://localhost:4840` is parsed to hostname `localhost` and port 4840
and passes all three validation checks; `opc.tcp://x` is rejected during
validation (its length 11 passes the size check and it ends at the
port-invalid check); `http://localhost:80` is rejected by the scheme check;
`opc.tcp://host:abc` is rejected by port parsing.  All three rejections
return before any socket is created or connection attempted. -/
theorem c7_url_validation (initState : UA_ConnectionState)
    (env : ClientConnectEnv) :
    ((ClientNetworkLayerTCP_connect initState
        ("opc.tcp://localhost:4840").toList env).hostname =
          ("localhost").toList ∧
      (ClientNetworkLayerTCP_connect initState
        ("opc.tcp://localhost:4840").toList env).port = 4840 ∧
      (ClientNetworkLayerTCP_connect initState
        ("opc.tcp://localhost:4840").toList env).stage ≠ .badUrlSize ∧
      (ClientNetworkLayerTCP_connect initState
        ("opc.tcp://localhost:4840").toList env).stage ≠ .badScheme ∧
      (ClientNetworkLayerTCP_connect initState
        ("opc.tcp://localhost:4840").toList env).stage ≠ .badPort) ∧
    (ClientNetworkLayerTCP_connect initState
      ("opc.tcp://x").toList env).stage = .badPort ∧
    (ClientNetworkLayerTCP_connect initState
      ("http://localhost:80").toList env).stage = .badScheme ∧
    (ClientNetworkLayerTCP_connect initState
      ("opc.tcp://host:abc").toList env).stage = .badPort := by
  obtain ⟨s, d, c, n⟩ := env
  cases initState <;> cases s <;> cases d <;> cases c <;> cases n <;> decide

/-- Witness for C7 at the concrete initial state opening and an environment
where every system call succeeds. -/
theorem c7_url_validation_witness :
    (ClientNetworkLayerTCP_connect .opening
      ("opc.tcp://localhost:4840").toList ⟨true, true, true, true⟩).hostname =
        ("localhost").toList ∧
    (ClientNetworkLayerTCP_connect .opening
      ("opc.tcp://localhost:4840").toList ⟨true, true, true, true⟩).port =
        4840 :=
  ⟨(c7_url_validation .opening ⟨true, true, true, true⟩).1.1,
    (c7_url_validation .opening ⟨true, true, true, true⟩).1.2.1⟩

/-- C8 counterexample: a URL whose port field parses to zero and a URL with no
`':'` before the scan bound are both rejected at the port-invalid check — they
do not proceed past validation, refuting the claim. -/
theorem c8_counterexample :
    (ClientNetworkLayerTCP_connect .opening ("opc.tcp://host:0").toList
      ⟨true, true, true, true⟩).stage = .badPort ∧
    (ClientNetworkLayerTCP_connect .opening ("opc.tcp://hostport").toList
      ⟨true, true, true, true⟩).stage = .badPort := by
  decide

/-- C8 amended: for every URL that passes the size and scheme checks, whenever
the port scan leaves the port variable 0 — which happens both when the port
field parses to zero and when no `':'` is found before the scan bound, since
`port` is initialised to 0 by the `for` loop — the connect call rejects the
URL at the port-invalid check rather than proceeding. -/
theorem c8_port_zero_rejected_amended (initState : UA_ConnectionState)
    (env : ClientConnectEnv) (url : List Char)
    (h1 : 11 ≤ url.length) (h2 : url.length < 512)
    (h3 : url.take 10 = schemeChars) (h4 : (portScan url 9).1 = 0) :
    (ClientNetworkLayerTCP_connect initState url env).stage = .badPort :=
  connect_stage_badPort_aux initState env url h1 h2 h3 h4

/-- Witness for the amended C8 theorem at a URL with a zero port field. -/
theorem c8_port_zero_rejected_amended_witness :
    (ClientNetworkLayerTCP_connect .opening ("opc.tcp://abc:0").toList
      ⟨true, true, true, true⟩).stage = .badPort :=
  c8_port_zero_rejected_amended .opening ⟨true, true, true, true⟩
    (("opc.tcp://abc:0").toList) (by decide) (by decide) (by decide)
    (by decide)

/-- C9 counterexample: with a valid URL, socket creation and name resolution
succeeding and the underlying connect attempt failing, the returned connection
exits through the connect-failure return with state closed — not opening —
because `ClientNetworkLayerClose` is invoked before returning. -/
theorem c9_counterexample :
    (ClientNetworkLayerTCP_connect .opening
      ("opc.tcp://localhost:4840").toList ⟨true, true, false, true⟩).stage =
        .badConnect ∧
    (ClientNetworkLayerTCP_connect .opening
      ("opc.tcp://localhost:4840").toList ⟨true, true, false, true⟩).state =
        .closed ∧
    UA_ConnectionState.closed ≠ .opening := by
  decide

/-- C9 amended: when the underlying connect attempt fails (URL valid, socket
and name resolution fine), `ClientNetworkLayerTCP_connect` invokes the
client close callback and returns the connection in the closed state; there
is no separate status return, so the caller detects the failure from that
state. -/
theorem c9_connect_failure_closed_amended (initState : UA_ConnectionState)
    (url : List Char) (env : ClientConnectEnv)
    (h1 : 11 ≤ url.length) (h2 : url.length < 512)
    (h3 : url.take 10 = schemeChars) (h4 : (portScan url 9).1 ≠ 0)
    (h5 : env.socketOk = true) (h6 : env.dnsOk = true)
    (h7 : env.connectOk = false) :
    (ClientNetworkLayerTCP_connect initState url env).state = .closed ∧
    (ClientNetworkLayerTCP_connect initState url env).stage = .badConnect := by
  unfold ClientNetworkLayerTCP_connect
  have hc1 : ¬(url.length < 11 ∨ 512 ≤ url.length) := by omega
  simp [hc1, h3, h4, h5, h6, h7, ClientNetworkLayerClose, socket_close]

/-- Witness for the amended C9 theorem at a concrete URL and an environment
whose connect attempt fails. -/
theorem c9_connect_failure_closed_amended_witness :
    (ClientNetworkLayerTCP_connect .opening
      ("opc.tcp://localhost:4840").toList ⟨true, true, false, true⟩).state =
        .closed ∧
    (ClientNetworkLayerTCP_connect .opening
      ("opc.tcp://localhost:4840").toList ⟨true, true, false, true⟩).stage =
        .badConnect :=
  c9_connect_failure_closed_amended .opening
    (("opc.tcp://localhost:4840").toList) ⟨true, true, false, true⟩
    (by decide) (by decide) (by decide) (by decide) rfl rfl rfl

/-- C10: a port field that parses to exactly 65535 is rejected.  For every
URL of the form scheme ++ host ++ `':'` ++ port-field whose host contains no
`':'` and whose port field parses to 65535, the connect call returns at the
port-invalid check (the guard accepts only values strictly below
`UINT16_MAX`); and conversely every accepted (nonzero) scanned port is
strictly below 65535. -/
theorem c10_port_65535_rejected :
    (∀ (initState : UA_ConnectionState) (env : ClientConnectEnv)
        (mid : List Char) (d : Char) (ds : List Char),
      (schemeChars ++ mid ++ ':' :: d :: ds).length < 512 →
      ':' ∉ mid →
      (strtoul (d :: ds)).1 = 65535 →
      (ClientNetworkLayerTCP_connect initState
        (schemeChars ++ mid ++ ':' :: d :: ds) env).stage = .badPort) ∧
    (∀ (url : List Char) (p : Nat),
      (portScan url p).1 ≠ 0 → (portScan url p).1 < 65535) := by
  constructor
  · intro initState env mid d ds h512 hmid h65
    have hlen : (schemeChars ++ mid ++ ':' :: d :: ds).length =
        12 + mid.length + ds.length := by
      simp [schemeChars]
      omega
    have hscan : (portScan (schemeChars ++ mid ++ ':' :: d :: ds) 9).1 = 0 := by
      have hdrop : (schemeChars ++ mid ++ ':' :: d :: ds).drop 9 =
          ('/' :: mid) ++ ':' :: d :: ds := by
        rw [List.append_assoc, List.drop_append_eq_append_drop]
        simp [schemeChars]
      have hnomem : ':' ∉ ('/' :: mid) := by
        intro hm
        rcases List.mem_cons.mp hm with hm | hm
        · simp at hm
        · exact hmid hm
      rw [portScan, hdrop, portScanGo_append_colon ('/' :: mid) d ds 9 hnomem]
      simp [h65]
    exact connect_stage_badPort_aux initState env _ (by omega) h512
      (by rw [List.append_assoc]; exact List.take_left' rfl) hscan
  · intro url p h
    exact portScanGo_lt p (url.drop p) h

/-- Witness for C10 at the URL `opc.tcp://host:65535` and, for the converse
part, the URL `opc.tcp://localhost:4840`. -/
theorem c10_port_65535_rejected_witness :
    (ClientNetworkLayerTCP_connect .opening
      (schemeChars ++ ("host").toList ++ ':' :: '6' :: ("5535").toList)
      ⟨true, true, true, true⟩).stage = .badPort ∧
    (portScan (("opc.tcp://localhost:4840").toList) 9).1 < 65535 :=
  ⟨c10_port_65535_rejected.1 .opening ⟨true, true, true, true⟩
      (("host").toList) '6' (("5535").toList) (by decide) (by decide)
      (by decide),
    c10_port_65535_rejected.2 (("opc.tcp://localhost:4840").toList) 9
      (by decide)⟩

/-- Helper: every element of the table after a swap-with-last removal was in
the table before (the removal writes the last element over index `i` and drops
the last slot; no new element appears). -/
theorem swapdel_mem {α : Type} {l : List α} {i : Nat} {z x : α}
    (hx : x ∈ (l.set i z).dropLast) : x ∈ l ∨ x = z :=
  List.mem_or_eq_of_mem_set (List.mem_of_mem_dropLast hx)


/-- Helper: the element at index `k` of the table after a swap-with-last
removal is the swapped-in element when `k = i` and the old element
otherwise. -/
theorem swapdel_get {α : Type} (l : List α) (i : Nat) (z : α) (k : Nat)
    (hk : k < l.length - 1) (hk2 : k < ((l.set i z).dropLast).length)
    (hkl : k < l.length) :
    ((l.set i z).dropLast).get ⟨k, hk2⟩ =
      if k = i then z else l.get ⟨k, hkl⟩ := by
  simp only [List.get_eq_getElem]
  rw [List.getElem_dropLast _ _ hk2]
  by_cases hki : k = i
  · subst hki
    rw [if_pos rfl]
    exact List.getElem_set_self (by simp [List.length_set]; omega)
  · rw [if_neg hki]
    exact List.getElem_set_ne (fun hcontra => hki hcontra.symm) ..

/-- Helper: in a duplicate-free table, the element removed by swap-with-last
at index `i` no longer occurs in the resulting table. -/
theorem swapdel_not_mem {α : Type} {l : List α} {i : Nat} (hi : i < l.length)
    (hlast : l.length - 1 < l.length) (hnd : l.Nodup) :
    l.get ⟨i, hi⟩ ∉ (l.set i (l.get ⟨l.length - 1, hlast⟩)).dropLast := by
  intro hmem
  obtain ⟨k, hk, hkx⟩ := List.mem_iff_getElem.mp hmem
  have hk' : k < l.length - 1 := by
    simpa [List.length_dropLast, List.length_set] using hk
  have hkl : k < l.length := by omega
  have hswap := swapdel_get l i (l.get ⟨l.length - 1, hlast⟩) k hk' hk hkl
  simp only [List.get_eq_getElem] at hswap hkx
  rw [hswap] at hkx
  by_cases hki : k = i
  · rw [if_pos hki] at hkx
    have := (List.Nodup.getElem_inj_iff hnd).mp hkx
    omega
  · rw [if_neg hki] at hkx
    have := (List.Nodup.getElem_inj_iff hnd).mp hkx
    omega

/-- Helper: swap-with-last removal preserves freedom from duplicates. -/
theorem swapdel_nodup {α : Type} {l : List α} {i : Nat}
    (hlast : l.length - 1 < l.length) (hnd : l.Nodup) :
    ((l.set i (l.get ⟨l.length - 1, hlast⟩)).dropLast).Nodup := by
  rw [List.nodup_iff_injective_get]
  intro a b he
  have ha : (a : Nat) < l.length - 1 := by
    have := a.isLt
    simpa [List.length_dropLast, List.length_set] using this
  have hb : (b : Nat) < l.length - 1 := by
    have := b.isLt
    simpa [List.length_dropLast, List.length_set] using this
  have hal : (a : Nat) < l.length := by omega
  have hbl : (b : Nat) < l.length := by omega
  rw [swapdel_get l i (l.get ⟨l.length - 1, hlast⟩) (a : Nat) ha a.isLt hal,
    swapdel_get l i (l.get ⟨l.length - 1, hlast⟩) (b : Nat) hb b.isLt hbl] at he
  apply Fin.ext
  by_cases hai : (a : Nat) = i <;> by_cases hbi : (b : Nat) = i
  · omega
  · rw [if_pos hai, if_neg hbi] at he
    have := List.nodup_iff_injective_get.mp hnd he
    have hv : l.length - 1 = (b : Nat) := Fin.mk.inj this
    omega
  · rw [if_neg hai, if_pos hbi] at he
    have := List.nodup_iff_injective_get.mp hnd he
    have hv : (a : Nat) = l.length - 1 := Fin.mk.inj this
    omega
  · rw [if_neg hai, if_neg hbi] at he
    have := List.nodup_iff_injective_get.mp hnd he
    have hv : (a : Nat) = (b : Nat) := Fin.mk.inj this
    exact hv

/-- Helper: the read loop only removes table entries — every entry of the
table it returns was in the table it started from.  Stated with an explicit
fuel bound on the remaining iterations for the induction. -/
theorem getJobsReadLoop_table_mem (env : GetJobsEnv) (rs : Nat) :
    ∀ (fuel : Nat) (maps : List ConnectionMapping) (i j : Nat),
      maps.length - i ≤ fuel →
      ∀ m ∈ (getJobsReadLoop env rs maps i j).2, m ∈ maps := by
  intro fuel
  induction fuel with
  | zero =>
    intro maps i j hf m hm
    have hcond : ¬(i < maps.length ∧ j < rs) := by omega
    rw [getJobsReadLoop, dif_neg hcond] at hm
    exact hm
  | succ n ih =>
    intro maps i j hf m hm
    by_cases hcond : i < maps.length ∧ j < rs
    · rw [getJobsReadLoop, dif_pos hcond] at hm
      simp only at hm
      by_cases hready : env.ready (maps.get ⟨i, hcond.1⟩).sockfd = false
      · rw [if_pos hready] at hm
        exact ih maps (i + 1) j (by omega) m hm
      · rw [if_neg hready] at hm
        by_cases hgood : (env.recvResult (maps.get ⟨i, hcond.1⟩)).1 = .good
        · rw [if_pos hgood] at hm
          by_cases hcm : (env.completeMessages (maps.get ⟨i, hcond.1⟩)
                (env.recvResult (maps.get ⟨i, hcond.1⟩)).2).1 ≠ .good ∨
              (env.completeMessages (maps.get ⟨i, hcond.1⟩)
                (env.recvResult (maps.get ⟨i, hcond.1⟩)).2).2.1.length = 0
          · rw [if_pos hcm] at hm
            exact ih maps (i + 1) j (by omega) m hm
          · rw [if_neg hcm] at hm
            simp only at hm
            exact ih maps (i + 1) (j + 1) (by omega) m hm
        · rw [if_neg hgood] at hm
          by_cases hcl : (env.recvResult (maps.get ⟨i, hcond.1⟩)).1 =
              .badConnectionClosed
          · rw [if_pos hcl] at hm
            simp only at hm
            have hm' := ih _ (i + 1) (j + 2) (by
              simp only [List.length_dropLast, List.length_set]
              omega) m hm
            rcases swapdel_mem hm' with h | h
            · exact h
            · rw [h]
              exact List.get_mem maps _ _
          · rw [if_neg hcl] at hm
            exact ih maps (i + 1) j (by omega) m hm
    · rw [getJobsReadLoop, dif_neg hcond] at hm
      exact hm

/-- Helper: the connections of the table after a swap-with-last removal are
the swap-with-last removal applied to the list of connections. -/
theorem swapdel_map_conn (maps : List ConnectionMapping) (i : Nat)
    (hlast : maps.length - 1 < maps.length)
    (hlast2 : (maps.map ConnectionMapping.connection).length - 1 <
      (maps.map ConnectionMapping.connection).length) :
    ((maps.set i (maps.get ⟨maps.length - 1, hlast⟩)).dropLast).map
        ConnectionMapping.connection =
      ((maps.map ConnectionMapping.connection).set i
        ((maps.map ConnectionMapping.connection).get
          ⟨(maps.map ConnectionMapping.connection).length - 1,
            hlast2⟩)).dropLast := by
  rw [List.map_dropLast, List.map_set]
  congr 2
  simp [List.getElem_map, List.length_map, List.get_eq_getElem]

/-- Helper: the read loop preserves freedom from duplicate connections in the
table, since swap-with-last removal does. -/
theorem getJobsReadLoop_table_nodup (env : GetJobsEnv) (rs : Nat) :
    ∀ (fuel : Nat) (maps : List ConnectionMapping) (i j : Nat),
      maps.length - i ≤ fuel →
      (maps.map ConnectionMapping.connection).Nodup →
      (((getJobsReadLoop env rs maps i j).2).map
        ConnectionMapping.connection).Nodup := by
  intro fuel
  induction fuel with
  | zero =>
    intro maps i j hf hnd
    have hcond : ¬(i < maps.length ∧ j < rs) := by omega
    rw [getJobsReadLoop, dif_neg hcond]
    exact hnd
  | succ n ih =>
    intro maps i j hf hnd
    by_cases hcond : i < maps.length ∧ j < rs
    · rw [getJobsReadLoop, dif_pos hcond]
      simp only
      by_cases hready : env.ready (maps.get ⟨i, hcond.1⟩).sockfd = false
      · rw [if_pos hready]
        exact ih maps (i + 1) j (by omega) hnd
      · rw [if_neg hready]
        by_cases hgood : (env.recvResult (maps.get ⟨i, hcond.1⟩)).1 = .good
        · rw [if_pos hgood]
          by_cases hcm : (env.completeMessages (maps.get ⟨i, hcond.1⟩)
                (env.recvResult (maps.get ⟨i, hcond.1⟩)).2).1 ≠ .good ∨
              (env.completeMessages (maps.get ⟨i, hcond.1⟩)
                (env.recvResult (maps.get ⟨i, hcond.1⟩)).2).2.1.length = 0
          · rw [if_pos hcm]
            exact ih maps (i + 1) j (by omega) hnd
          · rw [if_neg hcm]
            simp only
            exact ih maps (i + 1) (j + 1) (by omega) hnd
        · rw [if_neg hgood]
          by_cases hcl : (env.recvResult (maps.get ⟨i, hcond.1⟩)).1 =
              .badConnectionClosed
          · rw [if_pos hcl]
            simp only
            apply ih _ (i + 1) (j + 2) (by
              simp only [List.length_dropLast, List.length_set]
              omega)
            rw [swapdel_map_conn maps i (by omega) (by
              simp only [List.length_map]
              omega)]
            exact swapdel_nodup (by simp only [List.length_map]; omega) hnd
          · rw [if_neg hcl]
            exact ih maps (i + 1) j (by omega) hnd
    · rw [getJobsReadLoop, dif_neg hcond]
      exact hnd

/-- C1: whenever the read loop of `ServerNetworkLayerTCP_getJobs` observes a
connection-closed receive for a ready table entry (within the `select` result
bound), the job list it produces starts with the `DetachConnection` job for
that connection immediately followed by the delayed free job
(`FreeConnectionCallback`) for the same connection; the entry is removed via
swap-with-last, so the table handed to the next iteration no longer contains
that connection and is still free of duplicates. -/
theorem c1_closed_entry_detach_free_removed (env : GetJobsEnv)
    (resultsize : Nat) (maps : List ConnectionMapping) (i j : Nat)
    (hi : i < maps.length) (hj : j < resultsize)
    (hnd : (maps.map ConnectionMapping.connection).Nodup)
    (hready : env.ready (maps.get ⟨i, hi⟩).sockfd = true)
    (hclosed : (env.recvResult (maps.get ⟨i, hi⟩)).1 = .badConnectionClosed) :
    ((getJobsReadLoop env resultsize maps i j).1).take 2 =
      [UA_Job.detachConnection (maps.get ⟨i, hi⟩).connection,
        UA_Job.delayedFreeConnection (maps.get ⟨i, hi⟩).connection] ∧
    (∀ m ∈ (getJobsReadLoop env resultsize maps i j).2,
      m.connection ≠ (maps.get ⟨i, hi⟩).connection) ∧
    (((getJobsReadLoop env resultsize maps i j).2).map
      ConnectionMapping.connection).Nodup := by
  have hcond : i < maps.length ∧ j < resultsize := ⟨hi, hj⟩
  have hready' : ¬env.ready (maps.get ⟨i, hi⟩).sockfd = false := by
    rw [hready]
    simp
  have hgood' : ¬(env.recvResult (maps.get ⟨i, hi⟩)).1 = .good := by
    rw [hclosed]
    simp
  rw [getJobsReadLoop, dif_pos hcond]
  simp only
  rw [if_neg hready', if_neg hgood', if_pos hclosed]
  simp only
  refine ⟨rfl, ?_, ?_⟩
  · intro m hm hcontra
    have hmem : m ∈
        (maps.set i (maps.get ⟨maps.length - 1, by omega⟩)).dropLast :=
      getJobsReadLoop_table_mem env resultsize
        ((maps.set i (maps.get ⟨maps.length - 1, by omega⟩)).dropLast).length
        _ (i + 1) (j + 2) (by omega) m hm
    have hconn : m.connection ∈
        ((maps.set i (maps.get ⟨maps.length - 1, by omega⟩)).dropLast).map
          ConnectionMapping.connection :=
      List.mem_map_of_mem ConnectionMapping.connection hmem
    rw [swapdel_map_conn maps i (by omega) (by
        simp only [List.length_map]
        omega), hcontra] at hconn
    have hi' : i < (maps.map ConnectionMapping.connection).length := by
      simp only [List.length_map]
      omega
    have hgi : (maps.map ConnectionMapping.connection).get ⟨i, hi'⟩ =
        (maps.get ⟨i, hi⟩).connection := by
      simp [List.get_eq_getElem, List.getElem_map]
    rw [← hgi] at hconn
    exact swapdel_not_mem hi' (by simp only [List.length_map]; omega) hnd hconn
  · apply getJobsReadLoop_table_nodup env resultsize
      ((maps.set i (maps.get ⟨maps.length - 1, by omega⟩)).dropLast).length
      _ (i + 1) (j + 2) (by omega)
    rw [swapdel_map_conn maps i (by omega) (by
      simp only [List.length_map]
      omega)]
    exact swapdel_nodup (by simp only [List.length_map]; omega) hnd

/-- Witness for C1: on the concrete table with connections 1 and 2 where
connection 1 observes a connection-closed receive at the first position, the
loop emits the detach job for connection 1 immediately followed by its
delayed free job, and connection 1 is gone from the resulting table. -/
theorem c1_closed_entry_detach_free_removed_witness :
    ((getJobsReadLoop c1WitnessEnv 2 c1WitnessMaps 0 0).1).take 2 =
      [UA_Job.detachConnection 1, UA_Job.delayedFreeConnection 1] ∧
    (∀ m ∈ (getJobsReadLoop c1WitnessEnv 2 c1WitnessMaps 0 0).2,
      m.connection ≠ 1) ∧
    (((getJobsReadLoop c1WitnessEnv 2 c1WitnessMaps 0 0).2).map
      ConnectionMapping.connection).Nodup :=
  c1_closed_entry_detach_free_removed c1WitnessEnv 2 c1WitnessMaps 0 0
    (by decide) (by decide) (by decide) rfl rfl

/-- Helper: the job list built by the stop loop is the detach-then-free pair
for every table entry, in table order. -/
theorem stopLoop_jobs (maps : List ConnectionMapping)
    (states : Nat → CloseObs) :
    (stopLoop maps states).1 =
      maps.flatMap (fun m => [UA_Job.detachConnection m.connection,
        UA_Job.delayedFreeConnection m.connection]) := by
  induction maps generalizing states with
  | nil => simp [stopLoop]
  | cons m rest ih => simp [stopLoop, ih]

/-- Helper: after the stop loop, every connection of the table (and every
connection already closed before) is in the closed state — each entry went
through `socket_close`, which forces the state. -/
theorem stopLoop_states (maps : List ConnectionMapping) :
    ∀ (states : Nat → CloseObs) (c : Nat),
      (c ∈ maps.map ConnectionMapping.connection ∨
        (states c).state = .closed) →
      ((stopLoop maps states).2 c).state = .closed := by
  induction maps with
  | nil =>
    intro states c h
    rcases h with h | h
    · simp at h
    · simpa [stopLoop] using h
  | cons m rest ih =>
    intro states c h
    simp only [stopLoop]
    apply ih
    by_cases hc : c = m.connection
    · right
      simp [hc, socket_close]
    · rcases h with h | h
      · left
        simp only [List.map_cons, List.mem_cons] at h
        rcases h with h | h
        · exact absurd h hc
        · exact h
      · right
        simpa [hc] using h

/-- Helper: the detach-free pair list has twice as many jobs as the table has
entries. -/
theorem flatMap_detach_free_length (maps : List ConnectionMapping) :
    (maps.flatMap (fun m => [UA_Job.detachConnection m.connection,
      UA_Job.delayedFreeConnection m.connection])).length =
      2 * maps.length := by
  induction maps with
  | nil => simp
  | cons mm rest ih =>
    simp only [List.flatMap_cons, List.length_append, List.length_cons,
      List.length_nil, ih]
    omega

/-- C6: calling stop with K open table entries and a successful job-array
allocation returns the count 2K and a job list of length 2K consisting, for
each of the K connections in table order, of its `DetachConnection` job
immediately followed by its delayed free job; every table connection's state
has been forced to closed, and the listening socket has been shut down and
released. -/
theorem c6_stop_two_jobs_per_connection (maps : List ConnectionMapping)
    (states : Nat → CloseObs) :
    (ServerNetworkLayerTCP_stop maps states true).count = 2 * maps.length ∧
    (ServerNetworkLayerTCP_stop maps states true).jobs =
      maps.flatMap (fun m => [UA_Job.detachConnection m.connection,
        UA_Job.delayedFreeConnection m.connection]) ∧
    (ServerNetworkLayerTCP_stop maps states true).jobs.length =
      2 * maps.length ∧
    (∀ m ∈ maps,
      ((ServerNetworkLayerTCP_stop maps states true).connStates
        m.connection).state = .closed) ∧
    (ServerNetworkLayerTCP_stop maps states true).serverSocketClosed =
      true := by
  have hstop : ServerNetworkLayerTCP_stop maps states true =
      { count := 2 * maps.length, jobs := (stopLoop maps states).1
        connStates := (stopLoop maps states).2
        serverSocketClosed := true } := by
    simp [ServerNetworkLayerTCP_stop]
  rw [hstop]
  refine ⟨rfl, stopLoop_jobs maps states, ?_, ?_, rfl⟩
  · rw [stopLoop_jobs maps states]
    exact flatMap_detach_free_length maps
  · intro m hm
    exact stopLoop_states maps states m.connection
      (Or.inl (List.mem_map_of_mem ConnectionMapping.connection hm))

/-- Witness for C6 on a concrete two-entry table: stop yields count 4 and the
two detach-free pairs in order, both connections closed, listener closed. -/
theorem c6_stop_two_jobs_per_connection_witness :
    (ServerNetworkLayerTCP_stop
      [{ connection := 1, sockfd := 5 }, { connection := 2, sockfd := 6 }]
      (fun _ => { state := .established, shutdownCalls := 0
                  closesocketCalls := 0 }) true).count = 4 ∧
    (ServerNetworkLayerTCP_stop
      [{ connection := 1, sockfd := 5 }, { connection := 2, sockfd := 6 }]
      (fun _ => { state := .established, shutdownCalls := 0
                  closesocketCalls := 0 }) true).jobs =
      [UA_Job.detachConnection 1, UA_Job.delayedFreeConnection 1,
        UA_Job.detachConnection 2, UA_Job.delayedFreeConnection 2] ∧
    (ServerNetworkLayerTCP_stop
      [{ connection := 1, sockfd := 5 }, { connection := 2, sockfd := 6 }]
      (fun _ => { state := .established, shutdownCalls := 0
                  closesocketCalls := 0 }) true).jobs.length = 4 ∧
    (∀ m ∈ [({ connection := 1, sockfd := 5 } : ConnectionMapping),
        { connection := 2, sockfd := 6 }],
      ((ServerNetworkLayerTCP_stop
        [{ connection := 1, sockfd := 5 }, { connection := 2, sockfd := 6 }]
        (fun _ => { state := .established, shutdownCalls := 0
                    closesocketCalls := 0 }) true).connStates
          m.connection).state = .closed) ∧
    (ServerNetworkLayerTCP_stop
      [{ connection := 1, sockfd := 5 }, { connection := 2, sockfd := 6 }]
      (fun _ => { state := .established, shutdownCalls := 0
                  closesocketCalls := 0 }) true).serverSocketClosed = true :=
  c6_stop_two_jobs_per_connection
    [{ connection := 1, sockfd := 5 }, { connection := 2, sockfd := 6 }]
    (fun _ => { state := .established, shutdownCalls := 0
                closesocketCalls := 0 })
